import Mathlib

/-!
Shallow embedding of `src/core/reducer.js` of the boardgame.io state-transition
core: the state initializer (`createGameReducer`'s `initial` object), the
transition engine (the returned reducer closure) and the default turn-flow
sub-reducer (`GameFlow`).

JavaScript values held in the user-owned `G` slot and in move payloads are
untyped JSON data; they are modelled by the inductive `Val`.  The framework
owned `ctx` object always has exactly the four fields the initializer writes
(`turn`, `currentPlayer`, `numPlayers`, `winner`), so it is modelled as a
structure.  JavaScript numeric coercion of `currentPlayer` is modelled with
`Option Nat`, where `none` plays the role of `NaN` (produced by coercing a
non-numeric string or by taking a modulus by zero).
-/

namespace BoardGame

/-- Untyped JSON-style JavaScript data, as stored in `G`, in move payloads
and produced by `JSON.parse`. -/
inductive Val : Type where
  | null : Val
  | boolean : Bool → Val
  | num : Int → Val
  | str : String → Val
  | arr : List Val → Val
  | obj : List (String × Val) → Val

/-- The framework-owned turn context.  `createGameReducer` initializes exactly
these four fields and `GameFlow` only ever rewrites `currentPlayer`, `turn`
and `winner` through an object spread. -/
structure Ctx : Type where
  turn : Nat
  currentPlayer : String
  numPlayers : Nat
  winner : Option String
deriving DecidableEq

mutual
/-- The overall game state maintained by the reducer: the fields `G`, `ctx`,
`log`, `_id` and `_initial` of the `initial` object in `createGameReducer`,
in that order. -/
inductive GameState : Type where
  | mk : Val → Ctx → List Action → Nat → InitialFd → GameState

/-- A dispatched action.  `makeMove` carries the `action.move` payload,
`restore` carries the `action.state` payload, and `unknown` stands for any
action whose `type` is none of MAKE_MOVE, END_TURN, RESTORE (the reducer's
`default` case), tagged by its `type` string. -/
inductive Action : Type where
  | makeMove : Val → Action
  | endTurn : Action
  | restore : GameState → Action
  | unknown : String → Action

/-- The `_initial` slot of a state: either the `{}` placeholder it holds
while the `initial` object is being assembled, or a captured snapshot. -/
inductive InitialFd : Type where
  | emptyObj : InitialFd
  | snap : GameState → InitialFd
end

/-- The `G` field of a state. -/
def GameState.G : GameState → Val
  | .mk g _ _ _ _ => g

/-- The `ctx` field of a state. -/
def GameState.ctx : GameState → Ctx
  | .mk _ c _ _ _ => c

/-- The `log` field of a state. -/
def GameState.log : GameState → List Action
  | .mk _ _ l _ _ => l

/-- The `_id` field of a state. -/
def GameState.idv : GameState → Nat
  | .mk _ _ _ i _ => i

/-- The `_initial` field of a state. -/
def GameState.initialFd : GameState → InitialFd
  | .mk _ _ _ _ f => f

/-- A game definition, as supplied by the integrator (the argument `game` of
`createGameReducer`): `setup`, the declared move `names`, the move-application
`reducer`, the `victory` check, and an optional `flow` (absent when the
integrator does not supply one, in which case `createGameReducer` installs
the default `GameFlow`). -/
structure GameDef : Type where
  setup : Nat → Val
  names : List String
  reducer : Val → Val → Ctx → Val
  victory : Val → Ctx → Option String
  flow : Option (Ctx → Action → Val → Ctx)

/-- The no-op game definition substituted by `createGameReducer` when `game`
is absent: `setup: () => ({})`, `names: []`, `reducer: G => G`,
`victory: () => null`, and no `flow` of its own. -/
def noopGame : GameDef where
  setup := fun _ => Val.obj []
  names := []
  reducer := fun G _ _ => G
  victory := fun _ _ => none
  flow := none

/-- JavaScript unary plus applied to a string (`+ctx.currentPlayer`): a
string of decimal digits coerces to its value (the empty string to `0`, as
in JavaScript), anything else to `NaN`, modelled as `none`.  Signs, blanks
and fractional forms never arise here: the framework only feeds this its own
decimal output. -/
def jsToNum (s : String) : Option Nat :=
  if s.data.all Char.isDigit then
    some (s.data.foldl (fun a c => a * 10 + (c.toNat - 48)) 0)
  else none

/-- JavaScript `%` on a (possibly `NaN`) number and a non-negative integer:
`NaN % n` is `NaN`, and `x % 0` is `NaN`. -/
def jsMod : Option Nat → Nat → Option Nat
  | none, _ => none
  | some _, 0 => none
  | some a, Nat.succ n => some (a % Nat.succ n)

/-- JavaScript number-to-string coercion (`... + ""`): decimal notation,
which for naturals coincides with `Nat.repr`; `NaN` prints as `"NaN"`. -/
def jsNumToStr : Option Nat → String
  | none => "NaN"
  | some n => Nat.repr n

/-- The default turn-flow sub-reducer `GameFlow` defined inside
`createGameReducer` (it closes over `game` to call `game.victory`).  On
END_TURN it recomputes `winner`, advances `currentPlayer` by
`(+ctx.currentPlayer + 1) % ctx.numPlayers + ""`, increments `turn`, and
spreads the rest of `ctx` through; on any other action it returns `ctx`
unchanged. -/
def GameFlow (game : GameDef) (ctx : Ctx) (action : Action) (G : Val) : Ctx :=
  match action with
  | Action.endTurn =>
      let winner := game.victory G ctx
      let currentPlayer :=
        jsNumToStr (jsMod ((jsToNum ctx.currentPlayer).map (· + 1)) ctx.numPlayers)
      let turn := ctx.turn + 1
      { ctx with currentPlayer := currentPlayer, turn := turn, winner := winner }
  | _ => ctx

/-- `if (!game) game = noopGame`: resolve the optional game definition. -/
def resolveGame : Option GameDef → GameDef
  | none => noopGame
  | some g => g

/-- `if (!numPlayers) numPlayers = 2`: absent or falsy (`0`) player counts
default to `2`. -/
def resolveNumPlayers : Option Nat → Nat
  | none => 2
  | some 0 => 2
  | some (Nat.succ n) => Nat.succ n

/-- `if (!game.flow) game.flow = GameFlow`: the turn-flow actually used by
the reducer is the integrator-supplied one when present, and the default
`GameFlow` otherwise. -/
def resolvedFlow (game : GameDef) : Ctx → Action → Val → Ctx :=
  match game.flow with
  | none => GameFlow game
  | some f => f

/-- `JSON.parse(JSON.stringify(obj))`: on JSON-representable states (which is
all of `GameState`, since `Val` is exactly JSON data and the framework fields
are serializable) the round trip produces a structurally equal, independent
value, so on this pure value model it is the identity on contents. -/
def deepCopy (s : GameState) : GameState := s

/-- The `initial` object assembled by `createGameReducer`, including the
capture `initial._initial = deepCopy(initial)` performed while `_initial`
still holds its `{}` placeholder. -/
def initialState (game : Option GameDef) (numPlayers : Option Nat) : GameState :=
  let g := resolveGame game
  let n := resolveNumPlayers numPlayers
  let initial : GameState :=
    GameState.mk (g.setup n)
      { turn := 0, currentPlayer := "0", numPlayers := n, winner := none }
      [] 0 InitialFd.emptyObj
  GameState.mk initial.G initial.ctx initial.log initial.idv
    (InitialFd.snap (deepCopy initial))

/-- The reducer closure returned by `createGameReducer`: the transition
engine mapping `(state, action)` to the next state. -/
def gameReducer (game : Option GameDef) (state : GameState) (action : Action) :
    GameState :=
  let g := resolveGame game
  match action with
  | Action.makeMove move =>
      let G := g.reducer state.G move state.ctx
      let log := state.log ++ [Action.makeMove move]
      GameState.mk G state.ctx log (state.idv + 1) state.initialFd
  | Action.endTurn =>
      let ctx := resolvedFlow g state.ctx Action.endTurn state.G
      let log := state.log ++ [Action.endTurn]
      GameState.mk state.G ctx log (state.idv + 1) state.initialFd
  | Action.restore s => s
  | Action.unknown _ => state

/-- Modelled from the spec: the JSON object shape of a dispatched MAKE_MOVE
action, `{type: MAKE_MOVE, move: m}`.  The modules `action-types.js` and
`action-creators.js` are not among the sources; the shape is fixed by the
reducer reading `action.type` and `action.move`, with the tag string taken
from the spec's action vocabulary. -/
def makeMoveActionVal (m : Val) : Val :=
  Val.obj [("type", Val.str "MAKE_MOVE"), ("move", m)]

/-- A game definition whose move-application function returns its second
argument unchanged, which makes visible exactly which value the transition
engine passes in that position. -/
def echoGame : GameDef where
  setup := fun _ => Val.null
  names := []
  reducer := fun _ m _ => m
  victory := fun _ _ => none
  flow := none

/-- A game definition whose victory check always reports player `"1"` as the
winner. -/
def alwaysWinGame : GameDef where
  setup := fun _ => Val.null
  names := []
  reducer := fun G _ _ => G
  victory := fun _ _ => some "1"
  flow := none

/-- A game definition whose victory check reports a winner on the very first
turn and null afterwards. -/
def flickerGame : GameDef where
  setup := fun _ => Val.null
  names := []
  reducer := fun G _ _ => G
  victory := fun _ ctx => if ctx.turn = 0 then some "0" else none
  flow := none

/-- A concrete state whose `ctx.winner` is already set. -/
def wonState : GameState :=
  GameState.mk Val.null
    { turn := 3, currentPlayer := "1", numPlayers := 2, winner := some "1" }
    [] 3 InitialFd.emptyObj

/-- Whether an action is a RESTORE action. -/
def isRestoreA : Action → Bool
  | Action.restore _ => true
  | _ => false

/-- Feed a sequence of actions through the transition engine, left to
right. -/
def applySeq (game : Option GameDef) (s : GameState) : List Action → GameState
  | [] => s
  | a :: rest => applySeq game (gameReducer game s a) rest

/-! ### Decimal round trip

`GameFlow` re-stringifies the advanced player index with `Nat.repr`; these
lemmas show that `jsToNum` recovers the value, so that canonical decimal
index strings stay canonical across turns. -/

theorem toDigitsCore_append (fuel : Nat) :
    ∀ (n : Nat) (ds : List Char),
      Nat.toDigitsCore 10 fuel n ds = Nat.toDigitsCore 10 fuel n [] ++ ds := by
  induction fuel with
  | zero => intro n ds; simp [Nat.toDigitsCore]
  | succ fuel ih =>
      intro n ds
      simp only [Nat.toDigitsCore]
      by_cases h : n / 10 = 0
      · simp [h]
      · simp only [h, if_false, if_neg h]
        rw [ih (n / 10) (Nat.digitChar (n % 10) :: ds),
          ih (n / 10) [Nat.digitChar (n % 10)]]
        simp

theorem toDigitsCore_irrel (n : Nat) :
    ∀ fuel fuel', n < fuel → n < fuel' →
      Nat.toDigitsCore 10 fuel n [] = Nat.toDigitsCore 10 fuel' n [] := by
  induction n using Nat.strong_induction_on with
  | _ n ih =>
    intro fuel fuel' h h'
    match fuel, fuel' with
    | Nat.succ f, Nat.succ f' =>
      simp only [Nat.toDigitsCore]
      by_cases h0 : n / 10 = 0
      · simp [h0]
      · simp only [h0, if_neg h0]
        rw [toDigitsCore_append f, toDigitsCore_append f']
        have hlt : n / 10 < n := Nat.div_lt_self (Nat.pos_of_ne_zero (by
          intro hn; rw [hn] at h0; exact h0 (by simp))) (by omega)
        rw [ih (n / 10) hlt f f' (by omega) (by omega)]

theorem toDigits_lt10 (n : Nat) (h : n < 10) :
    Nat.toDigits 10 n = [Nat.digitChar n] := by
  unfold Nat.toDigits
  simp [Nat.toDigitsCore, Nat.div_eq_of_lt h, Nat.mod_eq_of_lt h]

theorem toDigits_step (n : Nat) (h : 10 ≤ n) :
    Nat.toDigits 10 n = Nat.toDigits 10 (n / 10) ++ [Nat.digitChar (n % 10)] := by
  have h0 : n / 10 ≠ 0 := by
    intro h0
    have := (Nat.div_eq_zero_iff (by omega : 0 < 10)).mp h0
    omega
  show Nat.toDigitsCore 10 (n + 1) n [] = _
  simp only [Nat.toDigitsCore, h0, if_neg h0]
  rw [toDigitsCore_append n]
  have hlt : n / 10 < n := Nat.div_lt_self (by omega) (by omega)
  rw [toDigitsCore_irrel (n / 10) n (n / 10 + 1) (by omega) (by omega)]
  rfl

theorem digitChar_spec (d : Nat) (h : d < 10) :
    (Nat.digitChar d).isDigit = true ∧ (Nat.digitChar d).toNat - 48 = d := by
  have h10 : ∀ e, e < 10 →
      (Nat.digitChar e).isDigit = true ∧ (Nat.digitChar e).toNat - 48 = e := by
    decide
  exact h10 d h

theorem toDigits_all_isDigit (n : Nat) :
    (Nat.toDigits 10 n).all Char.isDigit = true := by
  induction n using Nat.strong_induction_on with
  | _ n ih =>
    by_cases h : n < 10
    · rw [toDigits_lt10 n h]
      simp [(digitChar_spec n h).1]
    · push_neg at h
      rw [toDigits_step n h, List.all_append]
      have hlt : n / 10 < n := Nat.div_lt_self (by omega) (by omega)
      simp [ih (n / 10) hlt, (digitChar_spec (n % 10) (Nat.mod_lt _ (by omega))).1]

theorem foldl_toDigits (n : Nat) :
    ∀ a, (Nat.toDigits 10 n).foldl (fun a c => a * 10 + (c.toNat - 48)) a =
      a * 10 ^ (Nat.toDigits 10 n).length + n := by
  induction n using Nat.strong_induction_on with
  | _ n ih =>
    intro a
    by_cases h : n < 10
    · rw [toDigits_lt10 n h]
      simp [List.foldl, (digitChar_spec n h).2]
    · push_neg at h
      have hlt : n / 10 < n := Nat.div_lt_self (by omega) (by omega)
      rw [toDigits_step n h, List.foldl_append, List.length_append]
      simp only [List.foldl, (digitChar_spec (n % 10) (Nat.mod_lt _ (by omega))).2,
        ih (n / 10) hlt a, List.length_cons, List.length_nil]
      have hdm : 10 * (n / 10) + n % 10 = n := Nat.div_add_mod n 10
      have hp : 10 ^ ((Nat.toDigits 10 (n / 10)).length + (0 + 1)) =
          10 ^ (Nat.toDigits 10 (n / 10)).length * 10 := by
        rw [Nat.add_comm 0 1, pow_succ]
      ring_nf
      omega

theorem jsToNum_repr (n : Nat) : jsToNum (Nat.repr n) = some n := by
  show jsToNum (Nat.toDigits 10 n).asString = some n
  have hdata : (Nat.toDigits 10 n).asString.data = Nat.toDigits 10 n := rfl
  unfold jsToNum
  rw [hdata, toDigits_all_isDigit n, if_pos rfl, foldl_toDigits n 0]
  simp

/-- `x % n` on actual (non-`NaN`) numbers with a positive modulus. -/
theorem jsMod_pos (a n : Nat) (h : 0 < n) : jsMod (some a) n = some (a % n) := by
  match n, h with
  | Nat.succ m, _ => rfl

/-- Transitions other than RESTORE carry the `_initial` field through
untouched (the reducer copies it by object spread). -/
theorem gameReducer_initialFd (game : Option GameDef) (s : GameState) (a : Action)
    (h : isRestoreA a = false) :
    (gameReducer game s a).initialFd = s.initialFd := by
  cases a with
  | makeMove m => rfl
  | endTurn => rfl
  | restore S => simp [isRestoreA] at h
  | unknown t => rfl

/-- A RESTORE-free action sequence carries the `_initial` field through
untouched. -/
theorem applySeq_initialFd (game : Option GameDef) :
    ∀ (acts : List Action) (s : GameState), (∀ a ∈ acts, isRestoreA a = false) →
      (applySeq game s acts).initialFd = s.initialFd := by
  intro acts
  induction acts with
  | nil => intro s _; rfl
  | cons a rest ih =>
      intro s h
      show (applySeq game (gameReducer game s a) rest).initialFd = s.initialFd
      rw [ih (gameReducer game s a) (fun b hb => h b (List.mem_cons_of_mem a hb))]
      exact gameReducer_initialFd game s a (h a (List.mem_cons_self a rest))

/-- Claim C3: a MAKE_MOVE transition increments `_id` by one, appends exactly the
dispatched action to the log, and leaves `ctx` unchanged. -/
theorem make_move_frame (game : Option GameDef) (s : GameState) (m : Val) :
    (gameReducer game s (Action.makeMove m)).idv = s.idv + 1 ∧
    (gameReducer game s (Action.makeMove m)).log = s.log ++ [Action.makeMove m] ∧
    (gameReducer game s (Action.makeMove m)).ctx = s.ctx :=
  ⟨rfl, rfl, rfl⟩

/-- Claim C5: an END_TURN transition delegates `ctx` to the installed turn flow,
appends exactly the action to the log, increments `_id` by one, and leaves
`G` untouched. -/
theorem end_turn_frame (game : GameDef) (s : GameState) :
    (gameReducer (some game) s Action.endTurn).ctx =
      resolvedFlow game s.ctx Action.endTurn s.G ∧
    (gameReducer (some game) s Action.endTurn).log = s.log ++ [Action.endTurn] ∧
    (gameReducer (some game) s Action.endTurn).idv = s.idv + 1 ∧
    (gameReducer (some game) s Action.endTurn).G = s.G :=
  ⟨rfl, rfl, rfl, rfl⟩

/-- Claim C6: a RESTORE transition replaces the whole state with the carried state,
verbatim, regardless of the prior state. -/
theorem restore_replaces (game : Option GameDef) (s S : GameState) :
    gameReducer game s (Action.restore S) = S :=
  rfl

/-- Claim C7: an action of any unrecognized type is an identity transition. -/
theorem unknown_identity (game : Option GameDef) (s : GameState) (t : String) :
    gameReducer game s (Action.unknown t) = s :=
  rfl

/-- Claim C10: the `_initial` snapshot is captured while the `_initial` slot still
holds its `{}` placeholder, so the snapshot agrees with the initialized state
on `G`, `ctx`, `log` and `_id` but records `{}` in its own `_initial`. -/
theorem snapshot_records_placeholder (game : Option GameDef) (np : Option Nat) :
    ∃ s0 : GameState,
      (initialState game np).initialFd = InitialFd.snap s0 ∧
      s0.G = (initialState game np).G ∧
      s0.ctx = (initialState game np).ctx ∧
      s0.log = (initialState game np).log ∧
      s0.idv = (initialState game np).idv ∧
      s0.initialFd = InitialFd.emptyObj :=
  ⟨_, rfl, rfl, rfl, rfl, rfl, rfl⟩



/-- Claim C1, counterexample: with a move-application function that returns its
second argument, the next `G` is the bare `move` payload, not the value the
claim's formula produces from the whole action object. -/
theorem make_move_whole_action_cex :
    ¬ ((gameReducer (some echoGame) (initialState (some echoGame) (some 2))
          (Action.makeMove Val.null)).G =
        echoGame.reducer (initialState (some echoGame) (some 2)).G
          (makeMoveActionVal Val.null)
          (initialState (some echoGame) (some 2)).ctx) := by
  intro h
  exact Val.noConfusion h

/-- Claim C1 as amended: the next `G` is computed by invoking the game definition's
reducer with the current `G`, the action's `move` payload (`action.move`,
not the whole action object), and the current `ctx`. -/
theorem make_move_applies_reducer (game : GameDef) (s : GameState) (m : Val) :
    (gameReducer (some game) s (Action.makeMove m)).G = game.reducer s.G m s.ctx :=
  rfl

/-- Claim C2, counterexample: with a victory function that reports a winner only on
turn 0, the second END_TURN from the initial state takes a reachable state
whose winner is set back to a state whose winner is null. -/
theorem winner_not_monotonic_cex :
    (gameReducer (some flickerGame) (initialState (some flickerGame) (some 2))
        Action.endTurn).ctx.winner = some "0" ∧
    (gameReducer (some flickerGame)
        (gameReducer (some flickerGame) (initialState (some flickerGame) (some 2))
          Action.endTurn)
        Action.endTurn).ctx.winner = none := by
  constructor
  · rfl
  · rfl

/-- Claim C2 as amended: under the default turn flow, END_TURN rewrites `winner` to
`victory(G, ctx)`, so `winner` is monotonic provided the supplied victory
function never returns null on a state whose winner is already set;
MAKE_MOVE never changes `winner` at all. -/
theorem winner_monotonic (game : GameDef) (hflow : game.flow = none)
    (hvic : ∀ G c, c.winner ≠ none → game.victory G c ≠ none)
    (s : GameState) (hw : s.ctx.winner ≠ none) (m : Val) :
    (gameReducer (some game) s (Action.makeMove m)).ctx.winner ≠ none ∧
    (gameReducer (some game) s Action.endTurn).ctx.winner ≠ none := by
  constructor
  · exact hw
  · show (resolvedFlow game s.ctx Action.endTurn s.G).winner ≠ none
    rw [resolvedFlow, hflow]
    exact hvic s.G s.ctx hw

/-- Claim C2 as amended, witness at a concrete monotone game and a concrete state
with a set winner. -/
theorem winner_monotonic_witness :
    (gameReducer (some alwaysWinGame) wonState (Action.makeMove Val.null)).ctx.winner ≠ none ∧
    (gameReducer (some alwaysWinGame) wonState Action.endTurn).ctx.winner ≠ none :=
  winner_monotonic alwaysWinGame rfl
    (fun _ _ _ h => Option.noConfusion h) wonState
    (fun h => Option.noConfusion h) Val.null



/-- Claim C4, counterexample: `winner` is also a ctx field, and the default turn
flow does not pass it through unchanged — with a victory function reporting
player `"1"`, an END_TURN from a winnerless ctx changes `winner`. -/
theorem end_turn_winner_changes_cex :
    ¬ ((GameFlow alwaysWinGame
          { turn := 0, currentPlayer := "0", numPlayers := 2, winner := none }
          Action.endTurn Val.null).winner =
        ({ turn := 0, currentPlayer := "0", numPlayers := 2, winner := none } : Ctx).winner) := by
  intro h
  exact Option.noConfusion h

/-- Claim C4 as amended: on END_TURN the default turn flow advances `currentPlayer`
round-robin (re-stringified), increments `turn` unconditionally, passes
`numPlayers` through unchanged, and rewrites `winner` to `victory(G, ctx)`;
a valid index string stays a valid index string. -/
theorem end_turn_round_robin (game : GameDef) (ctx : Ctx) (G : Val) (k : Nat)
    (hk : jsToNum ctx.currentPlayer = some k) (hlt : k < ctx.numPlayers) :
    (GameFlow game ctx Action.endTurn G).currentPlayer =
      Nat.repr ((k + 1) % ctx.numPlayers) ∧
    (GameFlow game ctx Action.endTurn G).turn = ctx.turn + 1 ∧
    (GameFlow game ctx Action.endTurn G).numPlayers = ctx.numPlayers ∧
    (GameFlow game ctx Action.endTurn G).winner = game.victory G ctx ∧
    jsToNum (GameFlow game ctx Action.endTurn G).currentPlayer =
      some ((k + 1) % ctx.numPlayers) ∧
    (k + 1) % ctx.numPlayers < ctx.numPlayers := by
  have hnp : 0 < ctx.numPlayers := Nat.lt_of_le_of_lt (Nat.zero_le k) hlt
  have hcp : (GameFlow game ctx Action.endTurn G).currentPlayer =
      Nat.repr ((k + 1) % ctx.numPlayers) := by
    simp [GameFlow, hk, jsMod_pos _ _ hnp, jsNumToStr]
  refine ⟨hcp, rfl, rfl, rfl, ?_, Nat.mod_lt _ hnp⟩
  rw [hcp]
  exact jsToNum_repr ((k + 1) % ctx.numPlayers)

/-- Claim C4 as amended, witness at `currentPlayer = "0"`, `numPlayers = 2`. -/
theorem end_turn_round_robin_witness :
    (GameFlow alwaysWinGame
        { turn := 0, currentPlayer := "0", numPlayers := 2, winner := none }
        Action.endTurn Val.null).currentPlayer = Nat.repr ((0 + 1) % 2) ∧
    (GameFlow alwaysWinGame
        { turn := 0, currentPlayer := "0", numPlayers := 2, winner := none }
        Action.endTurn Val.null).turn = 0 + 1 ∧
    (GameFlow alwaysWinGame
        { turn := 0, currentPlayer := "0", numPlayers := 2, winner := none }
        Action.endTurn Val.null).numPlayers = 2 ∧
    (GameFlow alwaysWinGame
        { turn := 0, currentPlayer := "0", numPlayers := 2, winner := none }
        Action.endTurn Val.null).winner =
      alwaysWinGame.victory Val.null
        { turn := 0, currentPlayer := "0", numPlayers := 2, winner := none } ∧
    jsToNum (GameFlow alwaysWinGame
        { turn := 0, currentPlayer := "0", numPlayers := 2, winner := none }
        Action.endTurn Val.null).currentPlayer = some ((0 + 1) % 2) ∧
    (0 + 1) % 2 < 2 :=
  end_turn_round_robin alwaysWinGame
    { turn := 0, currentPlayer := "0", numPlayers := 2, winner := none }
    Val.null 0 (by decide) (by decide)

/-- Claim C8: initialization yields the documented fresh ctx, `_id = 0`, empty
log and `G = setup(numPlayers)`; an absent or falsy player count defaults
to 2; an absent game definition is replaced by the no-op definition with
empty setup, identity move-application and always-null victory. -/
theorem init_state (game : GameDef) (n k : Nat) (Gv mv : Val) (c : Ctx)
    (hn : 0 < n) :
    (initialState (some game) (some n)).ctx =
      { turn := 0, currentPlayer := "0", numPlayers := n, winner := none } ∧
    (initialState (some game) (some n)).idv = 0 ∧
    (initialState (some game) (some n)).log = [] ∧
    (initialState (some game) (some n)).G = game.setup n ∧
    (initialState (some game) none).ctx.numPlayers = 2 ∧
    (initialState (some game) (some 0)).ctx.numPlayers = 2 ∧
    gameReducer none = gameReducer (some noopGame) ∧
    initialState none (some n) = initialState (some noopGame) (some n) ∧
    noopGame.setup k = Val.obj [] ∧
    noopGame.reducer Gv mv c = Gv ∧
    noopGame.victory Gv c = none := by
  match n, hn with
  | Nat.succ n', _ =>
    exact ⟨rfl, rfl, rfl, rfl, rfl, rfl, rfl, rfl, rfl, rfl, rfl⟩

/-- Claim C8, witness at `n = 3`. -/
theorem init_state_witness :
    (initialState (some echoGame) (some 3)).ctx =
      { turn := 0, currentPlayer := "0", numPlayers := 3, winner := none } ∧
    (initialState (some echoGame) (some 3)).idv = 0 ∧
    (initialState (some echoGame) (some 3)).log = [] ∧
    (initialState (some echoGame) (some 3)).G = echoGame.setup 3 ∧
    (initialState (some echoGame) none).ctx.numPlayers = 2 ∧
    (initialState (some echoGame) (some 0)).ctx.numPlayers = 2 ∧
    gameReducer none = gameReducer (some noopGame) ∧
    initialState none (some 3) = initialState (some noopGame) (some 3) ∧
    noopGame.setup 5 = Val.obj [] ∧
    noopGame.reducer Val.null (Val.str "m")
      { turn := 0, currentPlayer := "0", numPlayers := 2, winner := none } = Val.null ∧
    noopGame.victory Val.null
      { turn := 0, currentPlayer := "0", numPlayers := 2, winner := none } = none :=
  init_state echoGame 3 5 Val.null (Val.str "m")
    { turn := 0, currentPlayer := "0", numPlayers := 2, winner := none }
    (by decide)

/-- Claim C9: the `_initial` field is the deep copy of the state assembled at
initialization time, and any RESTORE-free sequence of transitions leaves it
unchanged. -/
theorem initial_snapshot_stable (game : Option GameDef) (np : Option Nat)
    (acts : List Action) (h : ∀ a ∈ acts, isRestoreA a = false) :
    (initialState game np).initialFd =
      InitialFd.snap (deepCopy
        (GameState.mk ((resolveGame game).setup (resolveNumPlayers np))
          { turn := 0, currentPlayer := "0", numPlayers := resolveNumPlayers np,
            winner := none }
          [] 0 InitialFd.emptyObj)) ∧
    (applySeq game (initialState game np) acts).initialFd =
      (initialState game np).initialFd :=
  ⟨rfl, applySeq_initialFd game acts (initialState game np) h⟩

/-- Claim C9, witness: a concrete RESTORE-free action sequence. -/
theorem initial_snapshot_stable_witness :
    (initialState none none).initialFd =
      InitialFd.snap (deepCopy
        (GameState.mk ((resolveGame none).setup (resolveNumPlayers none))
          { turn := 0, currentPlayer := "0", numPlayers := resolveNumPlayers none,
            winner := none }
          [] 0 InitialFd.emptyObj)) ∧
    (applySeq none (initialState none none)
        [Action.endTurn, Action.makeMove Val.null, Action.unknown "NOPE"]).initialFd =
      (initialState none none).initialFd :=
  initial_snapshot_stable none none
    [Action.endTurn, Action.makeMove Val.null, Action.unknown "NOPE"]
    (by decide)

end BoardGame
